import Mathlib

set_option maxRecDepth 8000

/-!
A shallow embedding of the image row compositor in `src/code.py` and proofs
about it.  The core is `process_and_combine_images`: it resizes every uploaded
image to a common target height, burns a sequential letter label into each,
and concatenates them horizontally into one PNG.

Modelling conventions:
* The width computation `int(width * (target_height / height))` is modelled
  bit-exactly as IEEE binary64 (double) arithmetic: `target_height / height`
  is the correctly rounded quotient of the two integers, the multiplication
  converts `width` to a double and rounds the exact product once more, and
  `int` truncates toward zero.  The rounding is implemented over `ℕ`/`ℤ`
  significand-exponent pairs (round to nearest, ties to even, 53-bit
  significand, normal range) so that it evaluates inside the kernel.
* `int(target_height * 0.1)` equals `target_height / 10` (floor) for every
  target height up to 10^7 — in particular on the whole 200-800 slider
  range — so the font size is modelled as `target_height / 10`.
  `font_size * 1.5` and `target_height - text_y_offset` are exact in
  binary64 at these magnitudes and are evaluated over `ℚ`.
* PIL library calls are modelled by their documented behaviour:
  `Image.open` raises `UnidentifiedImageError` on an undecodable buffer,
  `Image.resize` raises `ValueError` when a requested dimension is zero
  (`_imaging.c`, `_resize`), `ImageFont.truetype` may fail with `OSError`
  depending on the environment (passed in as a boolean), and
  `ImageFont.load_default()` returns a fresh object on every call.
* Saving the combined bitmap as PNG (lines 78-80) is a lossless and
  deterministic encoding of the bitmap, so the embedding stops at the
  bitmap data.
-/

/-- A decoded bitmap as PIL exposes it after `Image.open(...).convert("RGB")`:
width and height in pixels, plus an opaque content identifier standing for the
pixel data.  `convert("RGB")` normalises the pixel format and keeps the
dimensions, so the embedding tracks dimensions and content identity. -/
structure RawImage where
  width : Nat
  height : Nat
  content : Nat
  deriving DecidableEq

/-- An uploaded file as the Streamlit uploader hands it to the core: an opaque
byte buffer.  `valid img` decodes to `img`; `corrupt id` is a buffer PIL cannot
identify as an image (`id` stands for the bytes themselves, so the exception
PIL raises depends only on the buffer, never on its position in the list). -/
inductive Buffer where
  | valid : RawImage → Buffer
  | corrupt : Nat → Buffer
  deriving DecidableEq

/-- The exceptions the core can raise.  `unidentified id` models PIL
`UnidentifiedImageError` from `Image.open`, whose message mentions the file
object, not the loop index.  `valueError` models the
`ValueError("height and width must be > 0")` Pillow raises from `Image.resize`
when a requested dimension is zero.  The core installs no exception handler,
so these propagate to the caller. -/
inductive ProcErr where
  | unidentified : Nat → ProcErr
  | valueError : ProcErr
  deriving DecidableEq

/-- Line 43, `Image.open(file).convert("RGB")`: a valid buffer decodes to its
bitmap; anything else raises `UnidentifiedImageError` carrying only the
offending buffer. -/
def pil_open : Buffer → Except ProcErr RawImage
  | Buffer.valid img => Except.ok img
  | Buffer.corrupt id => Except.error (ProcErr.unidentified id)

/-- Line 51, `img.resize((w, h))`: Pillow validates the requested size
(`if (xsize < 1 || ysize < 1)` raise `ValueError("height and width must be > 0")`)
and otherwise returns a bitmap of exactly the requested size with the same
content. -/
def pil_resize (img : RawImage) (size : Nat × Nat) : Except ProcErr RawImage :=
  if size.1 < 1 ∨ size.2 < 1 then Except.error ProcErr.valueError
  else Except.ok { width := size.1, height := size.2, content := img.content }

/-- Lines 7-12, `to_letter`: converts 1..5 to the letter `chr(96 + num)`
(a..e) and any other number to its decimal string `str(num)`. -/
def to_letter (num : Nat) : String :=
  if 1 ≤ num ∧ num ≤ 5 then String.singleton (Char.ofNat (96 + num)) else toString num

/-- A PIL font object as the code distinguishes them: the truetype font loaded
from a named file at a size, or the built-in bitmap font from
`ImageFont.load_default()`. -/
inductive PILFont where
  | truetype : String → Nat → PILFont
  | default_font : PILFont
  deriving DecidableEq

/-- The state the font setup block leaves behind: the font object, the value
of the `font_size` variable, and whether `st.warning` was emitted. -/
structure FontSetup where
  font : PILFont
  font_size : Nat
  warned : Bool
  deriving DecidableEq

/-- Lines 30-38, the font setup.  `font_size = int(target_height * 0.1)`
truncates, which over the integers is floor division `target_height / 10`.
When `ImageFont.truetype("arial.ttf", ...)` raises `IOError` the code emits a
`st.warning`, switches to `ImageFont.load_default()` and fixes `font_size` at
18.  `arialAvailable` is the environment fact whether the truetype load
succeeds. -/
def font_setup (arialAvailable : Bool) (target_height : Nat) : FontSetup :=
  let font_size := target_height / 10
  if arialAvailable then
    { font := PILFont.truetype "arial.ttf" font_size, font_size := font_size, warned := false }
  else
    { font := PILFont.default_font, font_size := 18, warned := true }

/-- The condition `font != ImageFont.load_default()` on line 59.
`ImageFont.load_default()` constructs a fresh font object on every call and
PIL font classes define no `__eq__`, so `!=` compares object identities and is
True for every `font`, including when `font` is itself a default font obtained
from an earlier `load_default()` call: the `else 25` branch is unreachable. -/
def font_ne_fresh_default (_font : PILFont) : Bool := true

/-- Line 59: `text_y_offset = font_size * 1.5 if font != ImageFont.load_default() else 25`,
evaluated exactly over `ℚ` (1.5 is exact in binary floating point). -/
def text_y_offset (font : PILFont) (font_size : Nat) : ℚ :=
  if font_ne_fresh_default font then (font_size : ℚ) * 3 / 2 else 25

/-- Bit length of a natural number (number of binary digits, 0 for 0).  The
recursion is structural on a fuel argument so that it reduces inside the
kernel; `bitlen n` runs it with fuel `n`, which always suffices. -/
def bits_fuel : Nat → Nat → Nat
  | 0, _ => 0
  | fuel + 1, n => if n = 0 then 0 else bits_fuel fuel (n / 2) + 1

/-- Bit length of a natural number: `bitlen 97 = 7`, `bitlen 0 = 0`. -/
def bitlen (n : Nat) : Nat := bits_fuel n n

/-- Round the nonnegative rational `a / b` to the nearest integer, ties to
even — the rounding IEEE 754 prescribes for significands (`b` positive). -/
def rnde (a b : Nat) : Nat :=
  if 2 * (a % b) < b then a / b
  else if b < 2 * (a % b) then a / b + 1
  else if (a / b) % 2 = 0 then a / b else a / b + 1

/-- The IEEE binary64 (double) nearest to the nonnegative rational `a / b`,
as a significand-exponent pair `(m, e)` of value `m * 2 ^ e` with
`2 ^ 52 ≤ m ≤ 2 ^ 53` (and `(0, 0)` for a zero input).  CPython computes
`target_height / height` on integers as exactly this correctly rounded
quotient, and converts an integer to a double by the same rounding
(`fl_pair w 1`).  The model covers the normal range — no overflow or
subnormals, which would need dimensions beyond 2^900 — and is validated
against CPython doubles on the concrete inputs used below. -/
def fl_pair (a b : Nat) : Nat × Int :=
  if a = 0 ∨ b = 0 then (0, 0)
  else
    let e0 : Int := (bitlen a : Int) - (bitlen b : Int)
    let e : Int := if b * 2 ^ e0.toNat ≤ a * 2 ^ (-e0).toNat then e0 else e0 - 1
    let num := a * 2 ^ (52 - e).toNat
    let den := b * 2 ^ (e - 52).toNat
    (rnde num den, e - 52)

/-- IEEE binary64 multiplication: the exact product of the two doubles,
rounded once (nonnegative operands). -/
def fl_mul (x y : Nat × Int) : Nat × Int :=
  let p := fl_pair (x.1 * y.1) 1
  (p.1, p.2 + x.2 + y.2)

/-- Python `int(x)` on a nonnegative double `(m, e)`: truncation toward
zero. -/
def fl_trunc (x : Nat × Int) : Nat :=
  if 0 ≤ x.2 then x.1 * 2 ^ x.2.toNat else x.1 / 2 ^ (-x.2).toNat

/-- Lines 46-48: `ratio = target_height / height; new_width = int(width * ratio)`
with Python's float semantics: `target_height / height` is the correctly
rounded binary64 quotient of the two integers, `width * ratio` converts
`width` to binary64 and rounds the exact product once more, and `int`
truncates toward zero.  The two roundings can land below the exact rational
floor — a 97×97 image at target height 200 gets width `int(97 * (200/97)) = 199`,
not 200, and a 49×9800 image at 200 gets 0 where the exact floor is 1.
(A decoded image always has positive height; `height = 0` would be a
`ZeroDivisionError` in Python.) -/
def new_width (width height target_height : Nat) : Nat :=
  fl_trunc (fl_mul (fl_pair width 1) (fl_pair target_height height))

/-- A resized bitmap with its label burned in (lines 51-64): the resized
dimensions, the label text, the position handed to `draw.text` (the label is
drawn in black with no background), and the content of the source bitmap. -/
structure LabeledImage where
  width : Nat
  height : Nat
  label : String
  label_xy : ℚ × ℚ
  content : Nat
  deriving DecidableEq

/-- One iteration of the loop on lines 41-66 for the file at 0-based index
`i`: open and normalise the image, compute the rescaled width, resize to
`(new_width, target_height)`, and draw the label `to_letter (i + 1)` at
`(10, target_height - text_y_offset)`. -/
def process_one (font : PILFont) (font_size target_height i : Nat) (file : Buffer) :
    Except ProcErr LabeledImage :=
  match pil_open file with
  | Except.error e => Except.error e
  | Except.ok img =>
    match pil_resize img (new_width img.width img.height target_height, target_height) with
    | Except.error e => Except.error e
    | Except.ok img_resized =>
      Except.ok
        { width := img_resized.width
          height := img_resized.height
          label := to_letter (i + 1)
          label_xy := (10, (target_height : ℚ) - text_y_offset font font_size)
          content := img_resized.content }

/-- The loop on lines 41-66: process the files in order, collecting the
resized labelled images; the first PIL exception aborts the loop and
propagates. -/
def process_images (font : PILFont) (font_size target_height : Nat) :
    Nat → List Buffer → Except ProcErr (List LabeledImage)
  | _, [] => Except.ok []
  | i, file :: rest =>
    match process_one font font_size target_height i file with
    | Except.error e => Except.error e
    | Except.ok img =>
      match process_images font font_size target_height (i + 1) rest with
      | Except.error e => Except.error e
      | Except.ok imgs => Except.ok (img :: imgs)

/-- Lines 72-75: paste each image at the running x offset `current_x`,
advancing by the image's width; the result records where each image was
pasted. -/
def paste_loop : Nat → List LabeledImage → List (Nat × LabeledImage)
  | _, [] => []
  | current_x, img :: rest => (current_x, img) :: paste_loop (current_x + img.width) rest

/-- The combined bitmap of lines 69-75: a white-filled canvas of
`total_width × target_height` with every processed image pasted at its
cumulative x offset. -/
structure Composite where
  width : Nat
  height : Nat
  placements : List (Nat × LabeledImage)
  deriving DecidableEq

/-- Lines 69-75: `total_width = sum(img.width for img in images)`, a white
`total_width × target_height` canvas, and the paste loop starting at
`current_x = 0`. -/
def combine_images (target_height : Nat) (imgs : List LabeledImage) : Composite :=
  { width := (imgs.map (fun img => img.width)).sum
    height := target_height
    placements := paste_loop 0 imgs }

/-- Lines 15-80, `process_and_combine_images`.  The result pairs whether
`st.warning` was emitted with the outcome: `Except.ok none` models the early
`return None` on empty input (line 24, before the font setup, so no warning),
`Except.ok (some c)` models returning the PNG bytes of composite `c`, and
`Except.error e` models an uncaught PIL exception propagating to the
caller. -/
def process_and_combine_images (arialAvailable : Bool) (image_files : List Buffer)
    (target_height : Nat) : Bool × Except ProcErr (Option Composite) :=
  if image_files.isEmpty then (false, Except.ok none)
  else
    let fs := font_setup arialAvailable target_height
    match process_images fs.font fs.font_size target_height 0 image_files with
    | Except.error e => (fs.warned, Except.error e)
    | Except.ok imgs => (fs.warned, Except.ok (some (combine_images target_height imgs)))

/-- The list `process_images` produces when every file decodes and every
resize succeeds; helper to state the success-path theorems explicitly. -/
def process_valid (font : PILFont) (font_size target_height : Nat) :
    Nat → List RawImage → List LabeledImage
  | _, [] => []
  | i, img :: rest =>
    { width := new_width img.width img.height target_height
      height := target_height
      label := to_letter (i + 1)
      label_xy := (10, (target_height : ℚ) - text_y_offset font font_size)
      content := img.content } :: process_valid font font_size target_height (i + 1) rest

/-- The rescaled width as the spec words it:
`round(originalWidth × targetHeight / originalHeight)`, rounding to the
nearest integer.  Stated for comparison with the code's `new_width`. -/
def rescaled_width_spec (width height target_height : Nat) : ℤ :=
  round ((width * target_height : ℚ) / (height : ℚ))

/-- The font size as the spec words it: `round(0.1 × targetHeight)`, rounding
to the nearest integer.  Stated for comparison with the code's
`font_setup`. -/
def font_size_spec (target_height : Nat) : ℤ :=
  round ((target_height : ℚ) / 10)

/-! Helper lemmas about the embedding, shared by the claim theorems below. -/

/-- A valid buffer whose rescaled width and target height are positive is
processed without an exception, into the expected resized labelled image. -/
lemma process_one_valid (font : PILFont) (font_size target_height i : Nat) (img : RawImage)
    (hw : 1 ≤ new_width img.width img.height target_height) (hH : 1 ≤ target_height) :
    process_one font font_size target_height i (Buffer.valid img) =
      Except.ok
        { width := new_width img.width img.height target_height
          height := target_height
          label := to_letter (i + 1)
          label_xy := (10, (target_height : ℚ) - text_y_offset font font_size)
          content := img.content } := by
  simp only [process_one, pil_open, pil_resize]
  rw [if_neg]
  push_neg
  exact ⟨hw, hH⟩

/-- Whenever one loop iteration succeeds, its output is determined by the
decoded bitmap: truncated rescaled width, the target height, and the label
`to_letter (i + 1)` drawn at `(10, target_height - text_y_offset)`. -/
lemma process_one_ok (font : PILFont) (font_size target_height i : Nat) (file : Buffer)
    (L : LabeledImage) (hL : process_one font font_size target_height i file = Except.ok L) :
    ∃ img : RawImage, pil_open file = Except.ok img ∧
      L = { width := new_width img.width img.height target_height
            height := target_height
            label := to_letter (i + 1)
            label_xy := (10, (target_height : ℚ) - text_y_offset font font_size)
            content := img.content } := by
  cases file with
  | corrupt n => simp [process_one, pil_open] at hL
  | valid img =>
    refine ⟨img, rfl, ?_⟩
    by_cases hcond : new_width img.width img.height target_height = 0 ∨ target_height = 0
    · simp [process_one, pil_open, pil_resize, Nat.lt_one_iff, hcond] at hL
    · simp [process_one, pil_open, pil_resize, Nat.lt_one_iff, hcond] at hL
      exact hL.symm

/-- Processing a block of well-behaved valid buffers followed by anything
processes the block and continues with the remainder at the shifted index. -/
lemma process_images_valid_pre (font : PILFont) (fs H : Nat) (hH : 1 ≤ H)
    (raws : List RawImage) :
    ∀ (i : Nat) (rest : List Buffer),
      (∀ r ∈ raws, 1 ≤ new_width r.width r.height H) →
      process_images font fs H i (raws.map Buffer.valid ++ rest) =
        (process_images font fs H (i + raws.length) rest).map
          (fun l => process_valid font fs H i raws ++ l) := by
  induction raws with
  | nil =>
    intro i rest _
    simp only [List.map_nil, List.nil_append, process_valid, List.length_nil, Nat.add_zero]
    cases process_images font fs H i rest <;> rfl
  | cons r raws ih =>
    intro i rest hw
    have hr : 1 ≤ new_width r.width r.height H := hw r (List.mem_cons_self r raws)
    simp only [List.map_cons, List.cons_append, process_images, List.append_eq,
      process_one_valid font fs H i r hr hH]
    rw [ih (i + 1) rest (fun x hx => hw x (List.mem_cons_of_mem r hx))]
    simp only [process_valid, List.length_cons]
    have harith : i + (raws.length + 1) = i + 1 + raws.length := by omega
    rw [harith]
    cases process_images font fs H (i + 1 + raws.length) rest <;> rfl

/-- When every buffer is valid and well-behaved, the loop succeeds and produces
exactly `process_valid`. -/
lemma process_images_all_valid (font : PILFont) (fs H : Nat) (hH : 1 ≤ H)
    (raws : List RawImage) (i : Nat)
    (hw : ∀ r ∈ raws, 1 ≤ new_width r.width r.height H) :
    process_images font fs H i (raws.map Buffer.valid) =
      Except.ok (process_valid font fs H i raws) := by
  have h := process_images_valid_pre font fs H hH raws i [] hw
  simpa [process_images, Except.map] using h

/-- The widths of the processed images are exactly the truncated rescaled
widths of the inputs, in order. -/
lemma process_valid_widths (font : PILFont) (fs H : Nat) (i : Nat) (raws : List RawImage) :
    (process_valid font fs H i raws).map (fun l => l.width) =
      raws.map (fun r => new_width r.width r.height H) := by
  induction raws generalizing i with
  | nil => rfl
  | cons r raws ih => simp [process_valid, ih]

/-- The paste loop pastes exactly the processed images, in order. -/
lemma paste_loop_map_snd (imgs : List LabeledImage) : ∀ (x : Nat),
    (paste_loop x imgs).map Prod.snd = imgs := by
  induction imgs with
  | nil => intro x; rfl
  | cons img rest ih => intro x; simp [paste_loop, ih]

/-- The paste loop pastes one image per input. -/
lemma paste_loop_length (imgs : List LabeledImage) (x : Nat) :
    (paste_loop x imgs).length = imgs.length := by
  simpa using congrArg List.length (paste_loop_map_snd imgs x)

/-- The x offsets produced by the paste loop are the cumulative sums of the
widths of the preceding images, shifted by the start offset. -/
lemma paste_loop_fst (imgs : List LabeledImage) : ∀ (x : Nat),
    (paste_loop x imgs).map Prod.fst =
      (List.range imgs.length).map
        (fun k => x + ((imgs.map (fun l => l.width)).take k).sum) := by
  induction imgs with
  | nil => intro x; rfl
  | cons img rest ih =>
    intro x
    simp only [paste_loop, List.map_cons, List.length_cons, List.range_succ_eq_map,
      ih (x + img.width), List.map_map]
    refine congrArg₂ _ ?_ ?_
    · simp
    · refine List.map_congr_left ?_
      intro k _
      simp [List.take_succ_cons, Nat.add_assoc]

/-- On a non-empty input list the function runs the font setup and the
processing loop, and wraps the outcome with the warning flag. -/
lemma process_and_combine_nonempty (a : Bool) (files : List Buffer) (H : Nat)
    (h : files ≠ []) :
    process_and_combine_images a files H =
      match process_images (font_setup a H).font (font_setup a H).font_size H 0 files with
      | Except.error e => ((font_setup a H).warned, Except.error e)
      | Except.ok imgs => ((font_setup a H).warned, Except.ok (some (combine_images H imgs))) := by
  have hne : ¬ files.isEmpty = true := by simpa using h
  unfold process_and_combine_images
  rw [if_neg hne]

/-- Any composite the function returns is the combination of a successfully
processed image list. -/
lemma process_and_combine_some (a : Bool) (files : List Buffer) (H : Nat) (c : Composite)
    (hc : (process_and_combine_images a files H).2 = Except.ok (some c)) :
    ∃ imgs, process_images (font_setup a H).font (font_setup a H).font_size H 0 files =
        Except.ok imgs ∧ c = combine_images H imgs := by
  by_cases h : files = []
  · subst h
    simp [process_and_combine_images] at hc
  · rw [process_and_combine_nonempty a files H h] at hc
    revert hc
    cases process_images (font_setup a H).font (font_setup a H).font_size H 0 files with
    | error e => intro hc; simp at hc
    | ok imgs =>
      intro hc
      simp only [Except.ok.injEq, Option.some.injEq] at hc
      exact ⟨imgs, rfl, hc.symm⟩

/-- A failing loop makes the whole call return the propagated exception. -/
lemma process_and_combine_error (a : Bool) (files : List Buffer) (H : Nat) (e : ProcErr)
    (h : files ≠ [])
    (hp : process_images (font_setup a H).font (font_setup a H).font_size H 0 files =
      Except.error e) :
    process_and_combine_images a files H = ((font_setup a H).warned, Except.error e) := by
  rw [process_and_combine_nonempty a files H h, hp]

/-- A successful loop makes the whole call return the combined composite. -/
lemma process_and_combine_ok (a : Bool) (files : List Buffer) (H : Nat)
    (imgs : List LabeledImage) (h : files ≠ [])
    (hp : process_images (font_setup a H).font (font_setup a H).font_size H 0 files =
      Except.ok imgs) :
    process_and_combine_images a files H =
      ((font_setup a H).warned, Except.ok (some (combine_images H imgs))) := by
  rw [process_and_combine_nonempty a files H h, hp]

/-- C1 (amended): for every non-empty list of decodable images and positive
targetHeight for which every computed rescaled width — the binary64 value of
int(originalWidth × (targetHeight / originalHeight)) — is at least 1, the call
returns a composite whose height is exactly targetHeight and whose width is
exactly the sum of those computed rescaled widths, in input order. -/
theorem C1_dims (a : Bool) (raws : List RawImage) (H : Nat)
    (hne : raws ≠ []) (hH : 1 ≤ H)
    (hw : ∀ r ∈ raws, 1 ≤ new_width r.width r.height H) :
    (process_and_combine_images a (raws.map Buffer.valid) H).2 =
      Except.ok (some (combine_images H
        (process_valid (font_setup a H).font (font_setup a H).font_size H 0 raws))) ∧
    (combine_images H
      (process_valid (font_setup a H).font (font_setup a H).font_size H 0 raws)).height = H ∧
    (combine_images H
      (process_valid (font_setup a H).font (font_setup a H).font_size H 0 raws)).width =
      (raws.map (fun r => new_width r.width r.height H)).sum := by
  have hmapne : raws.map Buffer.valid ≠ [] := by simpa using hne
  have hp := process_images_all_valid (font_setup a H).font (font_setup a H).font_size H hH raws 0 hw
  refine ⟨?_, rfl, ?_⟩
  · rw [process_and_combine_ok a (raws.map Buffer.valid) H _ hmapne hp]
  · simp [combine_images, process_valid_widths]

/-- C1 witness at the spec's own example: 100×200 and 300×100 at targetHeight
400 produce a 1400×400 composite. -/
theorem C1_dims_witness :
    (process_and_combine_images true [Buffer.valid ⟨100, 200, 0⟩, Buffer.valid ⟨300, 100, 1⟩] 400).2 =
      Except.ok (some (combine_images 400
        (process_valid (font_setup true 400).font (font_setup true 400).font_size 400 0
          [⟨100, 200, 0⟩, ⟨300, 100, 1⟩]))) ∧
    (combine_images 400
      (process_valid (font_setup true 400).font (font_setup true 400).font_size 400 0
        [⟨100, 200, 0⟩, ⟨300, 100, 1⟩])).height = 400 ∧
    (combine_images 400
      (process_valid (font_setup true 400).font (font_setup true 400).font_size 400 0
        [⟨100, 200, 0⟩, ⟨300, 100, 1⟩])).width =
      (([⟨100, 200, 0⟩, ⟨300, 100, 1⟩] : List RawImage).map
        (fun r => new_width r.width r.height 400)).sum :=
  C1_dims true [⟨100, 200, 0⟩, ⟨300, 100, 1⟩] 400 (by decide) (by decide) (by decide)

/-- C1 counterexample to the claim as stated: the input list [1×1000 image] is
non-empty and decodable and targetHeight 400 is positive, yet no composite is
produced at all — the resize of the zero-width slot raises ValueError. -/
theorem C1_counterexample :
    (process_and_combine_images true [Buffer.valid ⟨1, 1000, 0⟩] 400).2 =
      Except.error ProcErr.valueError := rfl

/-- C2 (amended): whenever the loop body succeeds on a decodable image, the
rescaled width is int(originalWidth × (targetHeight / originalHeight))
evaluated in IEEE binary64 — two roundings, then truncation toward zero — and
the rescaled height is exactly targetHeight.  The float value can land below
the exact rational quotient: a 97×97 image at targetHeight 200 gets width
199 although the exact ratio gives 200, and a 49×9800 image at 200 gets
width 0 although the exact floor is 1. -/
theorem C2_float_width (font : PILFont) (font_size target_height i : Nat)
    (img : RawImage) (L : LabeledImage)
    (hL : process_one font font_size target_height i (Buffer.valid img) = Except.ok L) :
    L.width = new_width img.width img.height target_height ∧ L.height = target_height ∧
    new_width 97 97 200 = 199 ∧ 97 * 200 / 97 = 200 ∧
    new_width 49 9800 200 = 0 ∧ 49 * 200 / 9800 = 1 := by
  obtain ⟨img2, hopen, hLe⟩ := process_one_ok font font_size target_height i (Buffer.valid img) L hL
  have himg : img = img2 := by simpa [pil_open] using hopen
  subst himg
  subst hLe
  exact ⟨rfl, rfl, by decide, by decide, by decide, by decide⟩

/-- C2 witness: a 100×200 image at targetHeight 400 is resized to 200×400
(the float computation gives exactly 200 there). -/
theorem C2_float_width_witness :
    (⟨200, 400, "a", (10, (400 : ℚ) - text_y_offset (PILFont.truetype "arial.ttf" 40) 40), 0⟩ :
        LabeledImage).width = new_width 100 200 400 ∧
    (⟨200, 400, "a", (10, (400 : ℚ) - text_y_offset (PILFont.truetype "arial.ttf" 40) 40), 0⟩ :
        LabeledImage).height = 400 ∧
    new_width 97 97 200 = 199 ∧ 97 * 200 / 97 = 200 ∧
    new_width 49 9800 200 = 0 ∧ 49 * 200 / 9800 = 1 :=
  C2_float_width (PILFont.truetype "arial.ttf" 40) 40 400 0 ⟨100, 200, 0⟩
    ⟨200, 400, "a", (10, (400 : ℚ) - text_y_offset (PILFont.truetype "arial.ttf" 40) 40), 0⟩ rfl

/-- C2 counterexample to the claim as stated: a 7×3 image at targetHeight 2
gets code width int(7 × (2/3)) = 4, while round(14/3) = 5 — the code
truncates, it does not round to nearest. -/
theorem C2_counterexample :
    new_width 7 3 2 = 4 ∧ rescaled_width_spec 7 3 2 = 5 ∧
    (new_width 7 3 2 : ℤ) ≠ rescaled_width_spec 7 3 2 := by
  have h1 : rescaled_width_spec 7 3 2 = 5 := by norm_num [rescaled_width_spec, round_eq]
  refine ⟨rfl, h1, ?_⟩
  rw [h1]
  decide

/-- C3: the label drawn on the image at 1-indexed position i is the letter
chr(96 + i) = chr(ord 'a' + i - 1) when 1 ≤ i ≤ 5, and the decimal string of
i otherwise. -/
theorem C3_label (i : Nat) (font : PILFont) (font_size target_height : Nat)
    (file : Buffer) (L : LabeledImage) (hi : 1 ≤ i)
    (hL : process_one font font_size target_height (i - 1) file = Except.ok L) :
    L.label = if i ≤ 5 then String.singleton (Char.ofNat (96 + i)) else toString i := by
  obtain ⟨img, _, hLe⟩ := process_one_ok font font_size target_height (i - 1) file L hL
  subst hLe
  show to_letter (i - 1 + 1) = _
  rw [Nat.sub_add_cancel hi]
  unfold to_letter
  by_cases h5 : i ≤ 5
  · rw [if_pos ⟨hi, h5⟩, if_pos h5]
  · rw [if_neg (fun h => h5 h.2), if_neg h5]

/-- C3 witness: the image at position 6 is labelled with the decimal string
"6". -/
theorem C3_label_witness :
    (⟨200, 400, "6", (10, (400 : ℚ) - text_y_offset PILFont.default_font 18), 0⟩ :
        LabeledImage).label =
      if 6 ≤ 5 then String.singleton (Char.ofNat (96 + 6)) else toString 6 :=
  C3_label 6 PILFont.default_font 18 400 (Buffer.valid ⟨100, 200, 0⟩)
    ⟨200, 400, "6", (10, (400 : ℚ) - text_y_offset PILFont.default_font 18), 0⟩
    (by decide) rfl

/-- C4 (amended): a buffer that fails to decode makes the whole request fail
with the propagated decoder exception — no composite is produced — but the
exception carries only the offending buffer, not its position. -/
theorem C4_decode_fatal (a : Bool) (H : Nat) (raws : List RawImage) (n : Nat)
    (rest : List Buffer) (hH : 1 ≤ H)
    (hw : ∀ r ∈ raws, 1 ≤ new_width r.width r.height H) :
    (process_and_combine_images a (raws.map Buffer.valid ++ Buffer.corrupt n :: rest) H).2 =
      Except.error (ProcErr.unidentified n) := by
  have hne : raws.map Buffer.valid ++ Buffer.corrupt n :: rest ≠ [] := by simp
  have hp : process_images (font_setup a H).font (font_setup a H).font_size H 0
      (raws.map Buffer.valid ++ Buffer.corrupt n :: rest) =
      Except.error (ProcErr.unidentified n) := by
    rw [process_images_valid_pre (font_setup a H).font (font_setup a H).font_size H hH raws 0
      (Buffer.corrupt n :: rest) hw]
    rfl
  rw [process_and_combine_error a _ H _ hne hp]

/-- C4 witness: a corrupt buffer at position 2 after a good 100×200 image
aborts the whole request with the decode exception. -/
theorem C4_decode_fatal_witness :
    (process_and_combine_images true [Buffer.valid ⟨100, 200, 0⟩, Buffer.corrupt 7] 400).2 =
      Except.error (ProcErr.unidentified 7) :=
  C4_decode_fatal true 400 [⟨100, 200, 0⟩] 7 [] (by decide) (by decide)

/-- C4 counterexample to the claim as stated: the same corrupt buffer failing
at position 1 and at position 2 produces the identical error value, so the
error does not name which position failed. -/
theorem C4_counterexample :
    (process_and_combine_images true [Buffer.corrupt 7] 400).2 =
      Except.error (ProcErr.unidentified 7) ∧
    (process_and_combine_images true [Buffer.valid ⟨100, 200, 0⟩, Buffer.corrupt 7] 400).2 =
      Except.error (ProcErr.unidentified 7) :=
  ⟨rfl, rfl⟩

/-- C5: on the empty input list the function returns None (and no warning)
without raising, for every targetHeight. -/
theorem C5_empty_input (a : Bool) (target_height : Nat) :
    process_and_combine_images a [] target_height = (false, Except.ok none) := rfl

/-- C6: in any returned composite, the x offset of each pasted image is the
sum of the widths of all preceding pasted images (0 for the first), and the
composite width is the total of all pasted widths — left-to-right, no gaps,
no overlap. -/
theorem C6_offsets (a : Bool) (files : List Buffer) (H : Nat) (c : Composite)
    (hc : (process_and_combine_images a files H).2 = Except.ok (some c)) :
    c.placements.map Prod.fst =
      (List.range c.placements.length).map
        (fun k => ((c.placements.map (fun p => p.2.width)).take k).sum) ∧
    c.width = (c.placements.map (fun p => p.2.width)).sum := by
  obtain ⟨imgs, -, hcomb⟩ := process_and_combine_some a files H c hc
  subst hcomb
  have h2 : (paste_loop 0 imgs).map (fun p => p.2.width) = imgs.map (fun l => l.width) := by
    rw [show (fun p : Nat × LabeledImage => p.2.width) =
        (fun l : LabeledImage => l.width) ∘ Prod.snd from rfl,
      ← List.map_map, paste_loop_map_snd]
  constructor
  · show (paste_loop 0 imgs).map Prod.fst =
      (List.range (paste_loop 0 imgs).length).map
        (fun k => (((paste_loop 0 imgs).map (fun p => p.2.width)).take k).sum)
    rw [paste_loop_fst imgs 0, paste_loop_length imgs 0, h2]
    simp
  · show (imgs.map (fun img => img.width)).sum =
      ((paste_loop 0 imgs).map (fun p => p.2.width)).sum
    rw [h2]

/-- C6 witness at the spec's example: offsets are [0, 200] for widths
[200, 1200], and the composite width is their total. -/
theorem C6_offsets_witness :
    (combine_images 400
      (process_valid (font_setup true 400).font (font_setup true 400).font_size 400 0
        [⟨100, 200, 0⟩, ⟨300, 100, 1⟩])).placements.map Prod.fst =
      (List.range (combine_images 400
        (process_valid (font_setup true 400).font (font_setup true 400).font_size 400 0
          [⟨100, 200, 0⟩, ⟨300, 100, 1⟩])).placements.length).map
        (fun k => (((combine_images 400
          (process_valid (font_setup true 400).font (font_setup true 400).font_size 400 0
            [⟨100, 200, 0⟩, ⟨300, 100, 1⟩])).placements.map (fun p => p.2.width)).take k).sum) ∧
    (combine_images 400
      (process_valid (font_setup true 400).font (font_setup true 400).font_size 400 0
        [⟨100, 200, 0⟩, ⟨300, 100, 1⟩])).width =
      ((combine_images 400
        (process_valid (font_setup true 400).font (font_setup true 400).font_size 400 0
          [⟨100, 200, 0⟩, ⟨300, 100, 1⟩])).placements.map (fun p => p.2.width)).sum :=
  C6_offsets true [Buffer.valid ⟨100, 200, 0⟩, Buffer.valid ⟨300, 100, 1⟩] 400
    (combine_images 400
      (process_valid (font_setup true 400).font (font_setup true 400).font_size 400 0
        [⟨100, 200, 0⟩, ⟨300, 100, 1⟩])) rfl

/-- C7: the transform is deterministic — equal warning-flag environment, equal
input buffers and equal targetHeight give identical output, bit for bit. -/
theorem C7_deterministic (a a2 : Bool) (files files2 : List Buffer) (H H2 : Nat)
    (ha : a = a2) (hf : files = files2) (hH : H = H2) :
    process_and_combine_images a files H = process_and_combine_images a2 files2 H2 := by
  subst ha
  subst hf
  subst hH
  rfl

/-- C7 witness: two runs on the same concrete input coincide. -/
theorem C7_deterministic_witness :
    process_and_combine_images true [Buffer.valid ⟨100, 200, 0⟩] 400 =
      process_and_combine_images true [Buffer.valid ⟨100, 200, 0⟩] 400 :=
  C7_deterministic true true [Buffer.valid ⟨100, 200, 0⟩] [Buffer.valid ⟨100, 200, 0⟩]
    400 400 rfl rfl rfl

/-- C8 (amended): the label font is loaded at size int(0.1 × targetHeight)
(truncated); when the system font is unavailable the built-in default font at
fixed size 18 is used, the non-fatal warning is surfaced, and no exception
reaches the caller — the warning flag is set exactly in the fallback case. -/
theorem C8_font_and_fallback (target_height : Nat) (files : List Buffer) (hne : files ≠ []) :
    font_setup true target_height =
      { font := PILFont.truetype "arial.ttf" (target_height / 10)
        font_size := target_height / 10
        warned := false } ∧
    font_setup false target_height =
      { font := PILFont.default_font, font_size := 18, warned := true } ∧
    (process_and_combine_images false files target_height).1 = true ∧
    (process_and_combine_images true files target_height).1 = false := by
  refine ⟨rfl, rfl, ?_, ?_⟩
  · rw [process_and_combine_nonempty false files target_height hne]
    cases process_images (font_setup false target_height).font
      (font_setup false target_height).font_size target_height 0 files <;> rfl
  · rw [process_and_combine_nonempty true files target_height hne]
    cases process_images (font_setup true target_height).font
      (font_setup true target_height).font_size target_height 0 files <;> rfl

/-- C8 witness at targetHeight 400 on one valid image. -/
theorem C8_font_and_fallback_witness :
    font_setup true 400 =
      { font := PILFont.truetype "arial.ttf" (400 / 10), font_size := 400 / 10
        warned := false } ∧
    font_setup false 400 =
      { font := PILFont.default_font, font_size := 18, warned := true } ∧
    (process_and_combine_images false [Buffer.valid ⟨100, 200, 0⟩] 400).1 = true ∧
    (process_and_combine_images true [Buffer.valid ⟨100, 200, 0⟩] 400).1 = false :=
  C8_font_and_fallback 400 [Buffer.valid ⟨100, 200, 0⟩] (by decide)

/-- C8 counterexample to the claim as stated: at targetHeight 19 the code
loads the font at size int(1.9) = 1, while round(0.1 × 19) = 2. -/
theorem C8_counterexample :
    (font_setup true 19).font = PILFont.truetype "arial.ttf" 1 ∧
    (font_setup true 19).font_size = 1 ∧ font_size_spec 19 = 2 :=
  ⟨rfl, rfl, by norm_num [font_size_spec, round_eq]⟩

/-- C9: the label is drawn 10 pixels from the left, and vertically at
targetHeight − fontSize × 1.5 in BOTH branches, because the comparison
`font != ImageFont.load_default()` is always True: with the fallback font
(fontSize 18) the code draws at 400 − 27 = 373, not at the intended
400 − 25 = 375 — the `else 25` branch is dead code. -/
theorem C9_label_position :
    (process_and_combine_images false [Buffer.valid ⟨100, 200, 0⟩] 400).2 =
      Except.ok (some (combine_images 400 [⟨200, 400, "a", (10, 373), 0⟩])) ∧
    (373 : ℚ) = 400 - 18 * (3 / 2) ∧
    (373 : ℚ) ≠ 400 - 25 ∧
    (process_and_combine_images true [Buffer.valid ⟨100, 200, 0⟩] 400).2 =
      Except.ok (some (combine_images 400 [⟨200, 400, "a", (10, 340), 0⟩])) ∧
    (340 : ℚ) = 400 - ((400 / 10 : Nat) : ℚ) * (3 / 2) := by
  have hfb : (400 : ℚ) - text_y_offset PILFont.default_font 18 = 373 := by
    norm_num [text_y_offset, font_ne_fresh_default]
  have hsys : (400 : ℚ) - text_y_offset (PILFont.truetype "arial.ttf" 40) 40 = 340 := by
    norm_num [text_y_offset, font_ne_fresh_default]
  have h1 : (process_and_combine_images false [Buffer.valid ⟨100, 200, 0⟩] 400).2 =
      Except.ok (some (combine_images 400
        [⟨200, 400, "a", (10, (400 : ℚ) - text_y_offset PILFont.default_font 18), 0⟩])) := rfl
  have h4 : (process_and_combine_images true [Buffer.valid ⟨100, 200, 0⟩] 400).2 =
      Except.ok (some (combine_images 400
        [⟨200, 400, "a",
          (10, (400 : ℚ) - text_y_offset (PILFont.truetype "arial.ttf" 40) 40), 0⟩])) := rfl
  rw [hfb] at h1
  rw [hsys] at h4
  refine ⟨h1, by norm_num, by norm_num, h4, by norm_num⟩

/-- Validation of the binary64 width model at its edge: the condition
originalWidth × targetHeight < originalHeight alone does not force a computed
width of 0, because for an astronomically tall input the two float roundings
can push the product up to 1.0 — exactly as CPython behaves on these
numbers.  Real decoded images are far below this size, so for them the
degenerate computed width 0 is reached exactly as the exemplars show. -/
lemma new_width_float_edge :
    9007199254540992 * 1 < 9007199254540993 ∧
    new_width 9007199254540992 9007199254540993 1 = 1 := by
  exact ⟨by decide, by decide⟩

/-- C10 (amended): for the exemplar 1×1000 image at targetHeight 400 the
computed new width is int(1 × (400/1000)) = 0, and any input whose computed
width is 0 makes the whole request abort with ValueError from the resize
(Pillow rejects zero target dimensions) — no composite is produced at all. -/
theorem C10_zero_width (H : Nat) (img : RawImage) (pre : List RawImage) (rest : List Buffer)
    (hH : 1 ≤ H) (hdeg : new_width img.width img.height H = 0)
    (hpre : ∀ r ∈ pre, 1 ≤ new_width r.width r.height H) :
    new_width 1 1000 400 = 0 ∧
    (process_and_combine_images true (pre.map Buffer.valid ++ Buffer.valid img :: rest) H).2 =
      Except.error ProcErr.valueError := by
  refine ⟨by decide, ?_⟩
  have hne : pre.map Buffer.valid ++ Buffer.valid img :: rest ≠ [] := by simp
  have hhead : process_images (font_setup true H).font (font_setup true H).font_size H
      (0 + pre.length) (Buffer.valid img :: rest) = Except.error ProcErr.valueError := by
    simp [process_images, process_one, pil_open, pil_resize, hdeg]
  have hp : process_images (font_setup true H).font (font_setup true H).font_size H 0
      (pre.map Buffer.valid ++ Buffer.valid img :: rest) = Except.error ProcErr.valueError := by
    rw [process_images_valid_pre (font_setup true H).font (font_setup true H).font_size H hH pre 0
      (Buffer.valid img :: rest) hpre, hhead]
    rfl
  rw [process_and_combine_error true _ H _ hne hp]

/-- C10 witness: a 1×1000 image at targetHeight 400 after a good 100×200 image
gets computed width 0 and the request aborts. -/
theorem C10_zero_width_witness :
    new_width 1 1000 400 = 0 ∧
    (process_and_combine_images true
      [Buffer.valid ⟨100, 200, 0⟩, Buffer.valid ⟨1, 1000, 5⟩] 400).2 =
      Except.error ProcErr.valueError :=
  C10_zero_width 400 ⟨1, 1000, 5⟩ [⟨100, 200, 0⟩] [] (by decide) (by decide) (by decide)

/-- C10 counterexample to the claim as stated: the 1×1000 image at
targetHeight 400 does get computed width 0, but it is NOT resized to zero
width contributing nothing — the resize raises ValueError and no composite is
produced. -/
theorem C10_counterexample :
    new_width 1 1000 400 = 0 ∧
    (process_and_combine_images true [Buffer.valid ⟨1, 1000, 5⟩] 400).2 =
      Except.error ProcErr.valueError :=
  ⟨rfl, rfl⟩
